import Mathlib

/-!
Shallow embedding of the example library of the C++ unit-testing template:
a computation unit (`AlgebraClass`) holding a numeric value, an injected
noise capability (`INoise`) and an optional logging capability (`ILogger`).

The repository ships the README (which shows the `AlgebraClass` constructor
taking a `const INoise*` and the body of `setLogger`), the GMock noise
double `tst/noise_mock.hh`, and container configuration.  The bodies of
`lib/algebraClass.cc`, `lib/INoise.hh`, `lib/ILogger.hh` and `tst/tst.cc`
are not among the sources, so those parts are modelled from the
specification, as marked on each definition.  Floating-point values are
embedded as exact rationals.  The observable side effects of one invocation
(calls into the noise capability, messages delivered to the logger) are
recorded as an explicit event list, so that call counts and message order
are part of the model.
-/

/-- Modelled from the spec: a failure raised by the noise capability call.
The spec only says such a failure propagates directly to the caller with no
containment, so the failure itself is kept abstract as a message-carrying
error value. -/
inductive NoiseError where
  | failure (msg : String)
deriving Repr, DecidableEq

deriving instance DecidableEq for Except

/-- Embedding of the `INoise` interface.  `lib/INoise.hh` is not among the
sources; the interface is reconstructed from `src/tst/noise_mock.hh`
(`MockNoise() : INoise(0.0)` shows the interface constructor takes a
configured magnitude, and `MOCK_METHOD(float, addNoise, (), (const, override))`
shows `addNoise` is a const member taking no arguments) together with the
spec ("each call returns a floating-point perturbation").  A const nullary
call is embedded as a fixed per-object outcome: the perturbation the call
returns, or the failure it raises. -/
structure INoise where
  magnitude : ℚ
  addNoise : Except NoiseError ℚ
deriving Repr, DecidableEq

/-- Embedding of `MockNoise` from `src/tst/noise_mock.hh`: it initialises
the interface part with magnitude `0.0`, and the outcome of its `addNoise`
call is programmed by the test (`EXPECT_CALL(...).WillOnce(...)`). -/
def MockNoise (programmed : Except NoiseError ℚ) : INoise :=
  { magnitude := 0, addNoise := programmed }

/-- Embedding of the `ILogger` interface.  `lib/ILogger.hh` is not among the
sources; per the spec it is a capability accepting a message string per call
with no return value, so a logger object is just a reference identity, and
the messages delivered to it are recorded in the event trace. -/
structure ILogger where
  id : Nat
deriving Repr, DecidableEq

/-- Embedding of `AlgebraClass` (from the README snippet in
`src/unnamed/part_000` and the spec's data model): a mutable numeric value,
a non-owning noise capability reference (a `const INoise*`, hence possibly
absent), and an optional non-owning logger reference settable after
construction. -/
structure AlgebraClass where
  value : ℚ
  noise : Option INoise
  logger : Option ILogger
deriving Repr, DecidableEq

/-- Constructor shown in the README snippet:
`AlgebraClass(const INoise* noise) : noise_(noise) {}`, together with the
spec's initial value; no logger is attached at construction. -/
def AlgebraClass.mk' (v : ℚ) (nz : INoise) : AlgebraClass :=
  { value := v, noise := some nz, logger := none }

/-- Modelled from the spec: the scenario "construct with value 3, no noise
supplied" and the `SquareTwoNoiseThrow` test require constructing a unit
whose noise capability reference is absent (a null `const INoise*`). -/
def AlgebraClass.mkNoNoise (v : ℚ) : AlgebraClass :=
  { value := v, noise := none, logger := none }

/-- `setLogger` from the README snippet:
`void setLogger(ILogger* logger) { logger_ = logger; }`. -/
def AlgebraClass.setLogger (a : AlgebraClass) (l : ILogger) : AlgebraClass :=
  { a with logger := some l }

/-- Observable side effects of one invocation: a call into the noise
capability (with its outcome) or a message delivered to the logger. -/
inductive Event where
  | noiseCall (outcome : Except NoiseError ℚ)
  | logMsg (s : String)
deriving Repr, DecidableEq

/-- Number of calls made into the noise capability in an event trace. -/
def noiseCalls (evs : List Event) : Nat :=
  evs.countP fun e =>
    match e with
    | .noiseCall _ => true
    | .logMsg _ => false

/-- Errors surfaced by `square()`: the functional core's own "unmet
dependency" error (no noise capability was ever supplied), or a failure of
the injected noise capability propagated unchanged to the caller. -/
inductive SquareError where
  | unmetDependency
  | noiseFailure (e : NoiseError)
deriving Repr, DecidableEq

/-- Complete observable outcome of one `square()` invocation: the returned
value or error, the state of the unit afterwards, and the event trace. -/
structure SquareOutcome where
  result : Except SquareError ℚ
  post : AlgebraClass
  events : List Event
deriving Repr, DecidableEq

/-- Modelled from the spec: `square()` (`lib/algebraClass.cc` is not among
the sources).  "square() returns the current value multiplied by itself,
then adds the result of one call to the noise capability if and only if a
noise capability was supplied; if none was supplied, the operation fails
with an unmet dependency error"; "any failure in the noise capability call
propagates directly to the caller (no containment)"; the operation reads
the current value and mutates nothing. -/
def AlgebraClass.square (a : AlgebraClass) : SquareOutcome :=
  match a.noise with
  | none => { result := .error .unmetDependency, post := a, events := [] }
  | some nz =>
    match nz.addNoise with
    | .error e =>
      { result := .error (.noiseFailure e), post := a
        events := [.noiseCall (.error e)] }
    | .ok n =>
      { result := .ok (a.value * a.value + n), post := a
        events := [.noiseCall (.ok n)] }

/-- Modelled from the spec: the start message the long operation reports
(`tst/tst.cc` with the exact text is not among the sources). -/
def startMessage : String := "long operation started"

/-- Modelled from the spec: the completion message the long operation
reports. -/
def completionMessage : String := "long operation completed"

/-- Observable outcome of one invocation of the long operation: the state
of the unit afterwards and the event trace. -/
structure LongOpOutcome where
  post : AlgebraClass
  events : List Event
deriving Repr, DecidableEq

/-- Modelled from the spec: the designated long-running operation
(`lib/algebraClass.cc` is not among the sources).  "If a logging capability
is attached, each invocation of a designated long operation reports start
and completion messages through it exactly once each, in that order"; with
no logger attached nothing is reported. -/
def AlgebraClass.longOperation (a : AlgebraClass) : LongOpOutcome :=
  match a.logger with
  | none => { post := a, events := [] }
  | some _ =>
    { post := a
      events := [.logMsg startMessage, .logMsg completionMessage] }

/-! Helper lemmas shared by several theorems below. -/

/-- Neither branch of `square()` writes to the unit: the post-state equals
the pre-state. -/
theorem AlgebraClass.square_post (a : AlgebraClass) : a.square.post = a := by
  cases h : a.noise with
  | none => simp [AlgebraClass.square, h]
  | some nz => cases hn : nz.addNoise <;> simp [AlgebraClass.square, h, hn]

/-- Neither branch of the long operation writes to the unit: the post-state
equals the pre-state. -/
theorem AlgebraClass.longOperation_post (a : AlgebraClass) :
    a.longOperation.post = a := by
  unfold AlgebraClass.longOperation
  cases a.logger <;> rfl

/-- C1: for every initial value `v` and every noise contribution `n`
programmed into the supplied noise capability, `square()` on a unit
constructed with that capability returns `v*v + n`, and the noise
capability's perturbation operation is invoked exactly once per call. -/
theorem square_with_noise_returns_vsq_plus_n (v : ℚ) (nz : INoise) (n : ℚ)
    (h : nz.addNoise = .ok n) :
    ((AlgebraClass.mk' v nz).square).result = .ok (v * v + n) ∧
      noiseCalls ((AlgebraClass.mk' v nz).square).events = 1 := by
  simp [AlgebraClass.square, AlgebraClass.mk', h, noiseCalls]

/-- Witness for C1 at `v = 4`, noise programmed to contribute `2`. -/
theorem square_with_noise_witness :
    ((AlgebraClass.mk' 4 (MockNoise (.ok 2))).square).result = .ok 18 ∧
      noiseCalls ((AlgebraClass.mk' 4 (MockNoise (.ok 2))).square).events = 1 := by
  have h := square_with_noise_returns_vsq_plus_n 4 (MockNoise (.ok 2)) 2 rfl
  exact ⟨h.1.trans (congrArg Except.ok (by norm_num)), h.2⟩

/-- C2: `square()` on a unit with no noise capability fails with the
unmet-dependency error, returns no value and performs no partial
computation (state unchanged, no capability invoked); and any other error
`square()` ever surfaces is a propagated failure of the injected noise
capability itself, so the unmet dependency is the functional core's only
own error kind (every other operation of the model is a total function). -/
theorem square_without_noise_unmet :
    (∀ a : AlgebraClass, a.noise = none →
        a.square.result = .error .unmetDependency ∧ a.square.post = a ∧
          a.square.events = []) ∧
    (∀ (a : AlgebraClass) (e : SquareError), a.square.result = .error e →
        e = .unmetDependency ∨
          ∃ nz ne, a.noise = some nz ∧ nz.addNoise = .error ne ∧
            e = .noiseFailure ne) := by
  constructor
  · intro a h
    simp [AlgebraClass.square, h]
  · intro a e h
    cases ha : a.noise with
    | none =>
      simp [AlgebraClass.square, ha] at h
      subst h
      exact Or.inl rfl
    | some nz =>
      cases hn : nz.addNoise with
      | error ne =>
        simp [AlgebraClass.square, ha, hn] at h
        subst h
        exact Or.inr ⟨nz, ne, rfl, hn, rfl⟩
      | ok n =>
        simp [AlgebraClass.square, ha, hn] at h

/-- Witness for C2 at the spec's own scenario: value `3`, no noise. -/
theorem square_without_noise_witness :
    (AlgebraClass.mkNoNoise 3).square.result = .error .unmetDependency ∧
      (AlgebraClass.mkNoNoise 3).square.post = AlgebraClass.mkNoNoise 3 ∧
      (AlgebraClass.mkNoNoise 3).square.events = [] :=
  square_without_noise_unmet.1 (AlgebraClass.mkNoNoise 3) rfl

/-- C3: whenever a logging capability is attached, one invocation of the
long operation delivers exactly two messages to the logger: the start
message followed by the completion message, in that order, and nothing
else. -/
theorem longOperation_logs_start_then_completion (a : AlgebraClass)
    (l : ILogger) (h : a.logger = some l) :
    a.longOperation.events =
      [Event.logMsg startMessage, Event.logMsg completionMessage] := by
  simp [AlgebraClass.longOperation, h]

/-- Witness for C3: a unit with a logger attached after construction. -/
theorem longOperation_logs_witness :
    ((AlgebraClass.mkNoNoise 1).setLogger ⟨0⟩).longOperation.events =
      [Event.logMsg startMessage, Event.logMsg completionMessage] :=
  longOperation_logs_start_then_completion _ ⟨0⟩ rfl

/-- C4: if the supplied noise capability contributes zero, `square()`
returns exactly `v*v`: zero noise is the identity for the perturbation. -/
theorem square_zero_noise_identity (v : ℚ) (nz : INoise)
    (h : nz.addNoise = .ok 0) :
    ((AlgebraClass.mk' v nz).square).result = .ok (v * v) := by
  simp [AlgebraClass.square, AlgebraClass.mk', h]

/-- Witness for C4 at `v = 3` with a mock programmed to contribute `0`. -/
theorem square_zero_noise_witness :
    ((AlgebraClass.mk' 3 (MockNoise (.ok 0))).square).result = .ok 9 := by
  have h := square_zero_noise_identity 3 (MockNoise (.ok 0)) rfl
  exact h.trans (congrArg Except.ok (by norm_num))

/-- C5: the concrete scenario of the `SquareTwoNoise` test: a unit
constructed with value `2` and a noise capability programmed to return
`1.0` squares to `5.0`. -/
theorem square_two_noise_one_returns_five :
    ((AlgebraClass.mk' 2 (MockNoise (.ok 1))).square).result = .ok 5 := by
  simp [AlgebraClass.square, AlgebraClass.mk', MockNoise]
  norm_num

/-- C6: a failure raised by the noise capability call propagates unchanged
to the caller of `square()`: the outcome carries exactly that failure, no
value is returned, the capability is called exactly once (no retry), and
the unit's state is untouched. -/
theorem square_propagates_noise_failure (v : ℚ) (nz : INoise)
    (e : NoiseError) (h : nz.addNoise = .error e) :
    (AlgebraClass.mk' v nz).square =
      { result := .error (.noiseFailure e), post := AlgebraClass.mk' v nz,
        events := [.noiseCall (.error e)] } := by
  simp [AlgebraClass.square, AlgebraClass.mk', h]

/-- Witness for C6 with a mock noise programmed to fail. -/
theorem square_propagates_noise_failure_witness :
    (AlgebraClass.mk' 2 (MockNoise (.error (.failure "boom")))).square =
      { result := .error (.noiseFailure (.failure "boom")),
        post := AlgebraClass.mk' 2 (MockNoise (.error (.failure "boom"))),
        events := [.noiseCall (.error (.failure "boom"))] } :=
  square_propagates_noise_failure 2 (MockNoise (.error (.failure "boom")))
    (.failure "boom") rfl

/-- C7 counterexample: the repository's own no-noise scenario (value `3`,
no noise supplied — the `SquareTwoNoiseThrow` test) constructs a unit whose
noise capability reference is absent, refuting "no constructed unit lacks a
noise capability reference". -/
theorem constructed_without_noise_counterexample :
    (AlgebraClass.mkNoNoise 3).noise = none := rfl

/-- C7 amended: a unit constructed with a noise capability holds that
reference and no logger (the logger is optional and attachable afterward,
and attaching one never removes the noise reference); but the noise
parameter is a nullable non-owning pointer, so units constructed without a
noise capability exist, and `square()` on them fails with the
unmet-dependency error. -/
theorem construction_noise_logger_amended :
    (∀ (v : ℚ) (nz : INoise),
        (AlgebraClass.mk' v nz).noise = some nz ∧
          (AlgebraClass.mk' v nz).logger = none) ∧
    (∀ v : ℚ, (AlgebraClass.mkNoNoise v).noise = none ∧
        (AlgebraClass.mkNoNoise v).square.result = .error .unmetDependency) ∧
    (∀ (a : AlgebraClass) (l : ILogger), (a.setLogger l).noise = a.noise) :=
  ⟨fun _ _ => ⟨rfl, rfl⟩, fun _ => ⟨rfl, rfl⟩, fun _ _ => rfl⟩

/-- C8 counterexample: the interface type itself carries persisted state.
The mock must initialise the interface part with magnitude `0.0`, and two
interface objects whose perturbation calls behave identically are still
distinct, differing only in the magnitude stored in the interface type —
refuting "no persisted state in the interface type". -/
theorem noise_interface_state_counterexample :
    (MockNoise (.ok 1)).magnitude = 0 ∧
      INoise.mk 0 (.ok 1) ≠ INoise.mk 5 (.ok 1) ∧
      (INoise.mk 0 (.ok 1)).addNoise = (INoise.mk 5 (.ok 1)).addNoise := by
  refine ⟨rfl, ?_, rfl⟩
  decide

/-- C8 amended: each call to the noise perturbation operation simply
returns a floating-point perturbation — the unit's squaring result depends
on the capability only through that returned outcome — but the interface
type itself carries a configured magnitude supplied to its constructor
(the mock passes `0.0`), so the persisted magnitude lives in the interface
type rather than only in a concrete implementation. -/
theorem noise_interface_amended :
    (∀ (m : ℚ) (r : Except NoiseError ℚ),
        (INoise.mk m r).addNoise = r ∧ (INoise.mk m r).magnitude = m) ∧
    (∀ (v m m' : ℚ) (r : Except NoiseError ℚ),
        (AlgebraClass.mk' v (INoise.mk m r)).square.result =
          (AlgebraClass.mk' v (INoise.mk m' r)).square.result) ∧
    (∀ r : Except NoiseError ℚ, (MockNoise r).magnitude = 0) := by
  refine ⟨fun _ _ => ⟨rfl, rfl⟩, fun v m m' r => ?_, fun _ => rfl⟩
  cases r <;> rfl

/-- C9: `setLogger` sets the logger reference to the given logger and
leaves every other part of the unit's state unchanged — the value and the
noise reference are identical before and after — and it is a total
function, so it succeeds unconditionally, including when it replaces a
previously attached logger. -/
theorem setLogger_frame (a : AlgebraClass) (l : ILogger) :
    (a.setLogger l).logger = some l ∧ (a.setLogger l).value = a.value ∧
      (a.setLogger l).noise = a.noise :=
  ⟨rfl, rfl, rfl⟩

/-- C10: the perturbation operation is a const member taking no arguments
(embedded as a fixed per-object outcome), and no operation of the unit
mutates its injected noise dependency: after `square()`, after the long
operation and after `setLogger`, the unit's noise reference is exactly the
one it held before. -/
theorem noise_dependency_never_mutated (a : AlgebraClass) :
    a.square.post.noise = a.noise ∧ a.longOperation.post.noise = a.noise ∧
      (∀ l : ILogger, (a.setLogger l).noise = a.noise) := by
  refine ⟨?_, ?_, fun _ => rfl⟩
  · rw [a.square_post]
  · rw [a.longOperation_post]
